import Mathlib

/-!
# Control-surface base class (`ControlProtocol`) and the GUI-thread assertion

A shallow embedding of `libs/ctrl-interface/control_protocol/control_protocol.cc`
and of the `ENSURE_GUI_THREAD` line of `libs/gtkmm2ext/gtkmm2ext/gui_thread.h`.

* A `std::shared_ptr<Route>` is an `Option Nat`: `none` is the null pointer,
  `some a` the address of a live, host-owned `Route`.
* The host's routes live in a store `Nat → Route`; the protocol object only
  keeps pointers into it (`route_table`).
* A `float`/`double` quantity is a rational number: the code only stores such
  values, reads them back and tests them against zero, it never computes on them.
* A C++ method becomes a function on `World` (the object plus the store) that
  returns its result together with the world it leaves behind.
-/

namespace Ardour

/-- A `float` or `double` value; only stored, returned and compared with zero. -/
abbrev Value := Rat

/-- Modelled from the spec: the host-owned mixer strip (`ARDOUR::Route`, whose
declaration is not among the sources).  Every control is a cell whose
`set_value` stores the value and whose `get_value` reads it back; a boolean
reader (`muted`, `soloed`, record-enable) is true when the cell is non-zero.
`audio_track` says whether `dynamic_pointer_cast<AudioTrack>` succeeds. -/
structure Route where
  name : String
  gain_control : Value
  amp_gain_control : Value
  peak_meter : Nat → Value
  mute_control : Value
  solo_control : Value
  audio_track : Bool
  rec_enable_control : Value

/-- A `std::shared_ptr<Route>`: `none` is null. -/
abbrev RoutePtr := Option Nat

/-- The data members of a `ControlProtocol` object that the code reads or writes.
`feedback` is modelled from the spec: the flag behind the virtual pair
`set_feedback` / `get_feedback` (declared in the absent header), a stored boolean
that `set_feedback` writes and `get_feedback` reads. -/
structure ControlProtocol where
  _name : String
  _active : Bool
  feedback : Bool
  route_table : List RoutePtr

/-- The object (`this`) together with the host-owned routes it points into. -/
structure World where
  self : ControlProtocol
  routes : Nat → Route

/-- Overwrite the route stored at address `a`. -/
def World.update (w : World) (a : Nat) (f : Route → Route) : World :=
  { w with routes := fun b => if b = a then f (w.routes a) else w.routes b }

/-- Modelled from the spec: `get_feedback ()` reads the stored flag. -/
def get_feedback (p : ControlProtocol) : Bool := p.feedback

/-- Modelled from the spec: `set_feedback (yn)` writes the stored flag. -/
def set_feedback (p : ControlProtocol) (yn : Bool) : ControlProtocol :=
  { p with feedback := yn }

/-! ## The route table -/

/-- The loop of `ControlProtocol::set_route_table_size`:
`while (route_table.size() < size) route_table.push_back (null)`. -/
def set_route_table_size_loop (route_table : List RoutePtr) (size : Nat) : List RoutePtr :=
  if route_table.length < size then
    set_route_table_size_loop (route_table ++ [none]) size
  else
    route_table
termination_by size - route_table.length
decreasing_by simp_wf; omega

/-- `ControlProtocol::set_route_table_size (uint32_t size)`. -/
def set_route_table_size (w : World) (size : Nat) : World :=
  { w with self := { w.self with
      route_table := set_route_table_size_loop w.self.route_table size } }

/-- `ControlProtocol::set_route_table (uint32_t table_index, std::shared_ptr<Route> r)`. -/
def set_route_table (w : World) (table_index : Nat) (r : RoutePtr) : World :=
  if table_index ≥ w.self.route_table.length then
    w
  else
    { w with self := { w.self with
        route_table := w.self.route_table.set table_index r } }

/-- `ControlProtocol::set_route_table (uint32_t table_index, uint32_t remote_control_id)`:
its body is compiled out (`#if 0`), only `return true` remains. -/
def set_route_table_by_id (w : World) (_table_index _remote_control_id : Nat) : Bool × World :=
  (true, w)

/-! ## Per-index accessors -/

/-- `ControlProtocol::route_set_rec_enable (uint32_t table_index, bool yn)`. -/
def route_set_rec_enable (w : World) (table_index : Nat) (_yn : Bool) : World :=
  if table_index ≥ w.self.route_table.length then
    w
  else
    match w.self.route_table.getD table_index none with
    | none => w
    | some a =>
      if (w.routes a).audio_track then
        w.update a (fun r => { r with rec_enable_control := 1 })
      else
        w

/-- `ControlProtocol::route_get_rec_enable (uint32_t table_index)`. -/
def route_get_rec_enable (w : World) (table_index : Nat) : Bool × World :=
  if table_index ≥ w.self.route_table.length then
    (false, w)
  else
    match w.self.route_table.getD table_index none with
    | none => (false, w)
    | some a =>
      if (w.routes a).audio_track then
        (decide ((w.routes a).rec_enable_control ≠ 0), w)
      else
        (false, w)

/-- `ControlProtocol::route_get_gain (uint32_t table_index)`. -/
def route_get_gain (w : World) (table_index : Nat) : Value × World :=
  if table_index ≥ w.self.route_table.length then
    (0, w)
  else
    match w.self.route_table.getD table_index none with
    | none => (0, w)
    | some a => ((w.routes a).gain_control, w)

/-- `ControlProtocol::route_set_gain (uint32_t table_index, float gain)`. -/
def route_set_gain (w : World) (table_index : Nat) (gain : Value) : World :=
  if table_index ≥ w.self.route_table.length then
    w
  else
    match w.self.route_table.getD table_index none with
    | none => w
    | some a => w.update a (fun r => { r with gain_control := gain })

/-- `ControlProtocol::route_get_effective_gain (uint32_t table_index)`. -/
def route_get_effective_gain (w : World) (table_index : Nat) : Value × World :=
  if table_index ≥ w.self.route_table.length then
    (0, w)
  else
    match w.self.route_table.getD table_index none with
    | none => (0, w)
    | some a => ((w.routes a).amp_gain_control, w)

/-- `ControlProtocol::route_get_peak_input_power (uint32_t table_index, uint32_t which_input)`. -/
def route_get_peak_input_power (w : World) (table_index which_input : Nat) : Value × World :=
  if table_index ≥ w.self.route_table.length then
    (0, w)
  else
    match w.self.route_table.getD table_index none with
    | none => (0, w)
    | some a => ((w.routes a).peak_meter which_input, w)

/-- `ControlProtocol::route_get_muted (uint32_t table_index)`. -/
def route_get_muted (w : World) (table_index : Nat) : Bool × World :=
  if table_index ≥ w.self.route_table.length then
    (false, w)
  else
    match w.self.route_table.getD table_index none with
    | none => (false, w)
    | some a => (decide ((w.routes a).mute_control ≠ 0), w)

/-- `ControlProtocol::route_set_muted (uint32_t table_index, bool yn)`. -/
def route_set_muted (w : World) (table_index : Nat) (yn : Bool) : World :=
  if table_index ≥ w.self.route_table.length then
    w
  else
    match w.self.route_table.getD table_index none with
    | none => w
    | some a => w.update a (fun r => { r with mute_control := if yn then 1 else 0 })

/-- `ControlProtocol::route_get_soloed (uint32_t table_index)`. -/
def route_get_soloed (w : World) (table_index : Nat) : Bool × World :=
  if table_index ≥ w.self.route_table.length then
    (false, w)
  else
    match w.self.route_table.getD table_index none with
    | none => (false, w)
    | some a => (decide ((w.routes a).solo_control ≠ 0), w)

/-- `ControlProtocol::route_set_soloed (uint32_t table_index, bool yn)`. -/
def route_set_soloed (w : World) (table_index : Nat) (yn : Bool) : World :=
  if table_index ≥ w.self.route_table.length then
    w
  else
    match w.self.route_table.getD table_index none with
    | none => w
    | some a => w.update a (fun r => { r with solo_control := if yn then 1 else 0 })

/-- `ControlProtocol::route_get_name (uint32_t table_index)`. -/
def route_get_name (w : World) (table_index : Nat) : String × World :=
  if table_index ≥ w.self.route_table.length then
    ("", w)
  else
    match w.self.route_table.getD table_index none with
    | none => ("", w)
    | some a => ((w.routes a).name, w)

/-- `ControlProtocol::set_active (bool yn)`. -/
def set_active (w : World) (yn : Bool) : Int × World :=
  (0, { w with self := { w.self with _active := yn } })

/-! ## Persisted state -/

/-- Modelled from the spec: the host-defined XML state node (`XMLNode`, from a
library that is not among the sources), reduced to what `get_state` and
`set_state` use: the node's name and its ordered list of properties, each a
property name with its text value. -/
structure XMLNode where
  name : String
  properties : List (String × String)

/-- Modelled from the spec: how a `bool` property is written to and parsed from
property text.  The conversion routines are not among the sources, so they are
taken as a parameter. -/
structure BoolCodec where
  bool_to_string : Bool → String
  string_to_bool : String → Option Bool

/-- A concrete codec, used to evaluate the model: `true` is "1", `false` is "0". -/
def digit_codec : BoolCodec where
  bool_to_string := fun b => if b then "1" else "0"
  string_to_bool := fun s => if s = "1" then some true else if s = "0" then some false else none

/-- Store `value` under `name` in a property list: the first property of that
name is overwritten, otherwise a new property is appended. -/
def set_property_in : List (String × String) → String → String → List (String × String)
  | [], name, value => [(name, value)]
  | p :: ps, name, value =>
    if p.1 = name then (name, value) :: ps else p :: set_property_in ps name value

/-- Modelled from the spec: `XMLNode::set_property (name, value)` for a string value. -/
def XMLNode.set_property (node : XMLNode) (name value : String) : XMLNode :=
  { node with properties := set_property_in node.properties name value }

/-- Modelled from the spec: `XMLNode::set_property (name, value)` for a `bool` value. -/
def XMLNode.set_property_bool (c : BoolCodec) (node : XMLNode) (name : String) (value : Bool) :
    XMLNode :=
  node.set_property name (c.bool_to_string value)

/-- Modelled from the spec: `XMLNode::get_property (name, bool&)`; `none` when the
node has no such property or its text is not a boolean. -/
def XMLNode.get_property_bool (c : BoolCodec) (node : XMLNode) (name : String) : Option Bool :=
  match node.properties.find? (fun p => p.1 = name) with
  | none => none
  | some p => c.string_to_bool p.2

/-- `ControlProtocol::state_node_name`. -/
def state_node_name : String := "Protocol"

/-- `ControlProtocol::get_state () const`: the node it builds, and the object afterwards. -/
def get_state (c : BoolCodec) (p : ControlProtocol) : XMLNode × ControlProtocol :=
  let node : XMLNode := { name := state_node_name, properties := [] }
  let node := node.set_property "name" p._name
  let node := node.set_property_bool c "feedback" (get_feedback p)
  (node, p)

/-- `ControlProtocol::set_state (XMLNode const& node, int version)`: the returned
status, and the object afterwards. -/
def set_state (c : BoolCodec) (p : ControlProtocol) (node : XMLNode) : Int × ControlProtocol :=
  match node.get_property_bool c "feedback" with
  | some feedback => (0, set_feedback p feedback)
  | none => (0, p)

/-! ## Construction and the static selection handler -/

/-- A handler that can be connected to a signal. -/
inductive Slot where
  | notify_stripable_selection_changed
  deriving DecidableEq, Repr

/-- The static data the constructor touches: the flag `selection_connected` and
the handlers that constructors have connected to
`ControlProtocolManager::StripableSelectionChanged`, in connection order. -/
structure Statics where
  selection_connected : Bool
  StripableSelectionChanged : List Slot
  deriving DecidableEq, Repr

/-- The static state at program start: `selection_connected = false`, nothing connected. -/
def Statics.initial : Statics :=
  { selection_connected := false, StripableSelectionChanged := [] }

/-- `ControlProtocol::ControlProtocol (Session& s, string str)`: the new object and
the static state afterwards.  The route table starts empty. -/
def ControlProtocol.construct (g : Statics) (str : String) : ControlProtocol × Statics :=
  let p : ControlProtocol :=
    { _name := str, _active := false, feedback := false, route_table := [] }
  if !g.selection_connected then
    (p, { selection_connected := true,
          StripableSelectionChanged :=
            g.StripableSelectionChanged ++ [Slot.notify_stripable_selection_changed] })
  else
    (p, g)

/-- Construct one protocol per name, in order, threading the static state. -/
def construct_all (g : Statics) : List String → List ControlProtocol × Statics
  | [] => ([], g)
  | str :: rest =>
    let r := ControlProtocol.construct g str
    let rs := construct_all r.2 rest
    (r.1 :: rs.1, rs.2)

/-! ## Every operation on one object, as data -/

/-- One call of a `ControlProtocol` operation with its arguments. -/
inductive Op where
  | set_route_table_size (size : Nat)
  | set_route_table (table_index : Nat) (r : RoutePtr)
  | set_route_table_by_id (table_index remote_control_id : Nat)
  | route_set_rec_enable (table_index : Nat) (yn : Bool)
  | route_get_rec_enable (table_index : Nat)
  | route_get_gain (table_index : Nat)
  | route_set_gain (table_index : Nat) (gain : Value)
  | route_get_effective_gain (table_index : Nat)
  | route_get_peak_input_power (table_index which_input : Nat)
  | route_get_muted (table_index : Nat)
  | route_set_muted (table_index : Nat) (yn : Bool)
  | route_get_soloed (table_index : Nat)
  | route_set_soloed (table_index : Nat) (yn : Bool)
  | route_get_name (table_index : Nat)
  | set_active (yn : Bool)
  | set_state (node : XMLNode)

/-- The world after one operation. -/
def Op.run (c : BoolCodec) (w : World) : Op → World
  | .set_route_table_size size => Ardour.set_route_table_size w size
  | .set_route_table table_index r => Ardour.set_route_table w table_index r
  | .set_route_table_by_id table_index id => (Ardour.set_route_table_by_id w table_index id).2
  | .route_set_rec_enable table_index yn => Ardour.route_set_rec_enable w table_index yn
  | .route_get_rec_enable table_index => (Ardour.route_get_rec_enable w table_index).2
  | .route_get_gain table_index => (Ardour.route_get_gain w table_index).2
  | .route_set_gain table_index gain => Ardour.route_set_gain w table_index gain
  | .route_get_effective_gain table_index => (Ardour.route_get_effective_gain w table_index).2
  | .route_get_peak_input_power table_index which_input =>
    (Ardour.route_get_peak_input_power w table_index which_input).2
  | .route_get_muted table_index => (Ardour.route_get_muted w table_index).2
  | .route_set_muted table_index yn => Ardour.route_set_muted w table_index yn
  | .route_get_soloed table_index => (Ardour.route_get_soloed w table_index).2
  | .route_set_soloed table_index yn => Ardour.route_set_soloed w table_index yn
  | .route_get_name table_index => (Ardour.route_get_name w table_index).2
  | .set_active yn => (Ardour.set_active w yn).2
  | .set_state node => { w with self := (Ardour.set_state c w.self node).2 }

/-! ## The GUI-thread assertion -/

/-- What a statement leaves behind: the program was aborted, or it goes on in a state. -/
inductive Outcome (σ : Type) where
  | aborted : Outcome σ
  | continues (s : σ) : Outcome σ

/-- The macro `ENSURE_GUI_THREAD(obj, method, ...)`, expanded to
`if (!Gtkmm2ext::UI::instance()->caller_is_self()) { abort (); }`.
`caller_is_self` is the UI instance's query on the program state; `obj`,
`method` and the extra arguments are expressions whose evaluation could change
the state and yield a value. -/
def ENSURE_GUI_THREAD {σ α β γ : Type} (caller_is_self : σ → Bool)
    (_obj : σ → α × σ) (_method : σ → β × σ) (_args : List (σ → γ × σ)) (s : σ) : Outcome σ :=
  if !caller_is_self s then Outcome.aborted else Outcome.continues s

/-- A small world used to evaluate the model: every address holds a plain route
named "bus", except address 0, an audio track named "track". -/
def sample_routes : Nat → Route := fun a =>
  { name := if a = 0 then "track" else "bus"
    gain_control := 1
    amp_gain_control := 1
    peak_meter := fun _ => 0
    mute_control := 0
    solo_control := 0
    audio_track := decide (a = 0)
    rec_enable_control := 0 }

/-- A protocol named "surface" whose table is `[track, null, bus]`. -/
def sample_world : World :=
  { self := { _name := "surface", _active := false, feedback := false,
              route_table := [some 0, none, some 1] }
    routes := sample_routes }

/-! ## Auxiliary facts -/

/-- The loop of `set_route_table_size` appends `size - n` null entries to a table of
length `n` (truncated subtraction: none when `size ≤ n`). -/
theorem set_route_table_size_loop_eq (route_table : List RoutePtr) (size : Nat) :
    set_route_table_size_loop route_table size
      = route_table ++ List.replicate (size - route_table.length) none := by
  generalize h : size - route_table.length = k
  induction k generalizing route_table with
  | zero =>
    rw [set_route_table_size_loop]
    have : ¬ route_table.length < size := by omega
    simp [this]
  | succ k ih =>
    rw [set_route_table_size_loop]
    have hlt : route_table.length < size := by omega
    have hk : size - (route_table ++ [none]).length = k := by
      simp only [List.length_append, List.length_singleton]; omega
    rw [if_pos hlt, ih _ hk, List.replicate_succ, List.append_assoc]
    rfl

/-- Reading an in-range null entry with a null default gives null. -/
theorem getD_of_null {route_table : List RoutePtr} {table_index : Nat}
    (h : route_table[table_index]? = some none) :
    route_table.getD table_index none = none := by
  simp [List.getD_eq_getElem?_getD, h]

/-! ## Claims -/

/-- C9: `set_route_table_size` terminates (it is a total function) and only grows
the table: afterwards the table has length `max n size`, its first `n` entries
are the old table, every entry at an index in `[n, size)` is null, nothing else
in the world changes, and when `size ≤ n` the world is unchanged. -/
theorem set_route_table_size_grows (w : World) (size : Nat) :
    (set_route_table_size w size).self.route_table.length
        = max w.self.route_table.length size
      ∧ (set_route_table_size w size).self.route_table.take w.self.route_table.length
        = w.self.route_table
      ∧ (∀ i, i < w.self.route_table.length →
          (set_route_table_size w size).self.route_table[i]? = w.self.route_table[i]?)
      ∧ (∀ i, w.self.route_table.length ≤ i → i < size →
          (set_route_table_size w size).self.route_table[i]? = some none)
      ∧ (set_route_table_size w size).routes = w.routes
      ∧ (size ≤ w.self.route_table.length → set_route_table_size w size = w) := by
  simp only [set_route_table_size, set_route_table_size_loop_eq]
  refine ⟨?_, ?_, ?_, ?_, ?_, ?_⟩
  · simp only [List.length_append, List.length_replicate]; omega
  · simp
  · intro i hi
    simp [List.getElem?_append_left hi]
  · intro i hle hlt
    rw [List.getElem?_append_right hle]
    simp only [List.getElem?_replicate]
    rw [if_pos (by omega)]
  · trivial
  · intro hle
    have : size - w.self.route_table.length = 0 := by omega
    simp [this]

/-- C1: when `table_index` is out of range or the entry there is a null route,
every per-index getter returns its default value (0.0, false, the empty string)
and leaves the world, hence every route, untouched. -/
theorem getters_default (w : World) (table_index : Nat)
    (h : table_index ≥ w.self.route_table.length
          ∨ w.self.route_table[table_index]? = some none) :
    route_get_gain w table_index = (0, w)
      ∧ route_get_effective_gain w table_index = (0, w)
      ∧ (∀ which_input, route_get_peak_input_power w table_index which_input = (0, w))
      ∧ route_get_muted w table_index = (false, w)
      ∧ route_get_soloed w table_index = (false, w)
      ∧ route_get_rec_enable w table_index = (false, w)
      ∧ route_get_name w table_index = ("", w) := by
  rcases h with h | h
  · simp [route_get_gain, route_get_effective_gain, route_get_peak_input_power,
      route_get_muted, route_get_soloed, route_get_rec_enable, route_get_name, h]
  · have hn := getD_of_null h
    simp only [route_get_gain, route_get_effective_gain, route_get_peak_input_power,
      route_get_muted, route_get_soloed, route_get_rec_enable, route_get_name, hn]
    simp

/-- Witness of C1 on the sample world: index 1 holds a null route. -/
theorem getters_default_witness :
    sample_world.self.route_table[1]? = some none
      ∧ route_get_gain sample_world 1 = (0, sample_world)
      ∧ route_get_name sample_world 1 = ("", sample_world) :=
  have h : sample_world.self.route_table[1]? = some none := rfl
  have t := getters_default sample_world 1 (Or.inr h)
  ⟨h, t.1, t.2.2.2.2.2.2⟩

/-- C2: when `table_index` is out of range or the entry there is a null route,
`route_set_gain`, `route_set_muted`, `route_set_soloed` and `route_set_rec_enable`
leave the whole world (route table and every route) unchanged for every
argument; and `set_route_table` with an out-of-range index leaves it unchanged. -/
theorem setters_noop (w : World) (table_index : Nat)
    (h : table_index ≥ w.self.route_table.length
          ∨ w.self.route_table[table_index]? = some none) :
    (∀ gain, route_set_gain w table_index gain = w)
      ∧ (∀ yn, route_set_muted w table_index yn = w)
      ∧ (∀ yn, route_set_soloed w table_index yn = w)
      ∧ (∀ yn, route_set_rec_enable w table_index yn = w)
      ∧ (table_index ≥ w.self.route_table.length →
          ∀ r, set_route_table w table_index r = w) := by
  refine ⟨?_, ?_, ?_, ?_, ?_⟩
  · intro gain
    rcases h with h | h
    · simp [route_set_gain, h]
    · simp [route_set_gain, h]
  · intro yn
    rcases h with h | h
    · simp [route_set_muted, h]
    · simp [route_set_muted, h]
  · intro yn
    rcases h with h | h
    · simp [route_set_soloed, h]
    · simp [route_set_soloed, h]
  · intro yn
    rcases h with h | h
    · simp [route_set_rec_enable, h]
    · simp [route_set_rec_enable, h]
  · intro hge r
    simp [set_route_table, hge]

/-- Witness of C2 on the sample world: index 7 is out of range. -/
theorem setters_noop_witness :
    7 ≥ sample_world.self.route_table.length
      ∧ route_set_gain sample_world 7 (1 / 2) = sample_world
      ∧ route_set_rec_enable sample_world 7 true = sample_world
      ∧ set_route_table sample_world 7 (some 4) = sample_world :=
  have h : 7 ≥ sample_world.self.route_table.length := by decide
  have t := setters_noop sample_world 7 (Or.inl h)
  ⟨h, t.1 (1 / 2), t.2.2.2.1 true, t.2.2.2.2 h (some 4)⟩

/-- C10: for an in-range `table_index`, `set_route_table (table_index, r)` stores
`r` there and keeps the table's size, every other entry and every route; so
afterwards `route_get_name (table_index)` is the name of `r` (the empty string
when `r` is null) and `route_get_name (j)` for `j ≠ table_index` is what it was. -/
theorem set_route_table_in_range (w : World) (table_index : Nat) (r : RoutePtr)
    (h : table_index < w.self.route_table.length) :
    (set_route_table w table_index r).self.route_table[table_index]? = some r
      ∧ (set_route_table w table_index r).self.route_table.length
          = w.self.route_table.length
      ∧ (∀ j, j ≠ table_index →
          (set_route_table w table_index r).self.route_table[j]? = w.self.route_table[j]?)
      ∧ (set_route_table w table_index r).routes = w.routes
      ∧ (route_get_name (set_route_table w table_index r) table_index).1
          = (match r with
             | none => ""
             | some a => (w.routes a).name)
      ∧ (∀ j, j ≠ table_index →
          (route_get_name (set_route_table w table_index r) j).1 = (route_get_name w j).1) := by
  have hnot : ¬ table_index ≥ w.self.route_table.length := by omega
  have hset : set_route_table w table_index r
      = { w with self := { w.self with
            route_table := w.self.route_table.set table_index r } } := by
    simp [set_route_table, hnot]
  rw [hset]
  refine ⟨?_, ?_, ?_, rfl, ?_, ?_⟩
  · simp [List.getElem?_set, h]
  · simp
  · intro j hj
    simp [List.getElem?_set, Ne.symm hj]
  · cases r with
    | none => simp [route_get_name, List.getD_eq_getElem?_getD, List.getElem?_set, h]
    | some a => simp [route_get_name, List.getD_eq_getElem?_getD, List.getElem?_set, h, Nat.not_le.mpr h]
  · intro j hj
    simp only [route_get_name, List.length_set, List.getD_eq_getElem?_getD,
      List.getElem?_set, if_neg (Ne.symm hj)]
    by_cases hlen : j ≥ w.self.route_table.length
    · simp [hlen]
    · simp only [if_neg hlen]
      cases w.self.route_table[j]?.getD none <;> rfl

/-- Witness of C10 on the sample world: the null entry at index 1 is replaced by
the route at address 0. -/
theorem set_route_table_in_range_witness :
    1 < sample_world.self.route_table.length
      ∧ (set_route_table sample_world 1 (some 0)).self.route_table[1]? = some (some 0)
      ∧ (route_get_name (set_route_table sample_world 1 (some 0)) 1).1
          = (sample_world.routes 0).name :=
  have h : 1 < sample_world.self.route_table.length := by decide
  have t := set_route_table_in_range sample_world 1 (some 0) h
  ⟨h, t.1, t.2.2.2.2.1⟩

/-- C3, evaluated where it fails: index 0 of the sample world is in range and holds
an audio track; after `route_set_rec_enable (0, false)` the getter
`route_get_rec_enable (0)` returns `true`, not `false`, because the setter stores
1.0 whatever `yn` is. -/
theorem rec_enable_set_false_reads_true :
    0 < sample_world.self.route_table.length
      ∧ sample_world.self.route_table[0]? = some (some 0)
      ∧ (sample_world.routes 0).audio_track = true
      ∧ (route_get_rec_enable (route_set_rec_enable sample_world 0 false) 0).1 = true
      ∧ (∀ (w : World) (table_index : Nat) (yn : Bool),
          route_set_rec_enable w table_index yn = route_set_rec_enable w table_index true) := by
  refine ⟨by decide, rfl, rfl, ?_, fun _ _ _ => rfl⟩
  simp [route_get_rec_enable, route_set_rec_enable, World.update, sample_world, sample_routes]

/-- C4: `get_state` builds a node named "Protocol" (`state_node_name`) that carries
exactly two properties, "name" with the protocol's `_name` and "feedback" with
the text of the value `get_feedback ()` returns, and it leaves the protocol
unchanged. -/
theorem get_state_node (c : BoolCodec) (p : ControlProtocol) :
    (get_state c p).1.name = "Protocol"
      ∧ (get_state c p).1.name = state_node_name
      ∧ (get_state c p).1.properties
          = [("name", p._name), ("feedback", c.bool_to_string (get_feedback p))]
      ∧ (get_state c p).1.properties.length = 2
      ∧ (get_state c p).2 = p := by
  simp [get_state, state_node_name, XMLNode.set_property, XMLNode.set_property_bool,
    set_property_in]

/-- C5 as stated fails: with `p` named "a" and `q` named "b", `set_state` on `q` with
the node of `get_state (p)` does not leave `q` named like `p`. -/
theorem set_state_keeps_own_name :
    ¬ ((set_state digit_codec
          { _name := "b", _active := false, feedback := false, route_table := [] }
          (get_state digit_codec
            { _name := "a", _active := false, feedback := true, route_table := [] }).1).1 = 0
        ∧ get_feedback (set_state digit_codec
          { _name := "b", _active := false, feedback := false, route_table := [] }
          (get_state digit_codec
            { _name := "a", _active := false, feedback := true, route_table := [] }).1).2
          = get_feedback
            { _name := "a", _active := false, feedback := true, route_table := [] }
        ∧ (set_state digit_codec
          { _name := "b", _active := false, feedback := false, route_table := [] }
          (get_state digit_codec
            { _name := "a", _active := false, feedback := true, route_table := [] }).1).2._name
          = "a") := by
  simp [set_state, get_state, get_feedback, set_feedback, XMLNode.set_property,
    XMLNode.set_property_bool, XMLNode.get_property_bool, set_property_in, digit_codec]

/-- C5, amended: when the codec parses back what it writes, `set_state` on `q` with
the node of `get_state (p)` returns 0 and makes `q`'s feedback flag equal to
`p`'s `get_feedback ()` value; `q` keeps its own name (and every other field). -/
theorem set_state_get_state (c : BoolCodec) (p q : ControlProtocol)
    (hc : ∀ b, c.string_to_bool (c.bool_to_string b) = some b) :
    (set_state c q (get_state c p).1).1 = 0
      ∧ get_feedback (set_state c q (get_state c p).1).2 = get_feedback p
      ∧ (set_state c q (get_state c p).1).2._name = q._name
      ∧ (set_state c q (get_state c p).1).2 = set_feedback q (get_feedback p) := by
  simp [set_state, get_state, get_feedback, set_feedback, XMLNode.set_property,
    XMLNode.set_property_bool, XMLNode.get_property_bool, set_property_in, hc]

/-- Witness of the amended C5 with the digit codec: the flag `true` of "a" is
restored into "b", which keeps its name. -/
theorem set_state_get_state_witness :
    (∀ b, digit_codec.string_to_bool (digit_codec.bool_to_string b) = some b)
      ∧ get_feedback (set_state digit_codec
          { _name := "b", _active := false, feedback := false, route_table := [] }
          (get_state digit_codec
            { _name := "a", _active := false, feedback := true, route_table := [] }).1).2
          = true
      ∧ (set_state digit_codec
          { _name := "b", _active := false, feedback := false, route_table := [] }
          (get_state digit_codec
            { _name := "a", _active := false, feedback := true, route_table := [] }).1).2._name
          = "b" :=
  have hc : ∀ b, digit_codec.string_to_bool (digit_codec.bool_to_string b) = some b := by
    intro b; cases b <;> decide
  have t := set_state_get_state digit_codec
    { _name := "a", _active := false, feedback := true, route_table := [] }
    { _name := "b", _active := false, feedback := false, route_table := [] } hc
  ⟨hc, t.2.1, t.2.2.1⟩

/-- C6 as stated fails: `set_route_table_size (5)` on the three-entry table of the
sample world leaves a table of five entries. -/
theorem set_route_table_size_changes_length :
    (Op.run digit_codec sample_world (Op.set_route_table_size 5)).self.route_table.length = 5
      ∧ sample_world.self.route_table.length = 3
      ∧ ¬ ((Op.run digit_codec sample_world (Op.set_route_table_size 5)).self.route_table.length
            = sample_world.self.route_table.length) := by
  simp [Op.run, set_route_table_size, set_route_table_size_loop_eq, sample_world]

/-- C6, amended: every operation other than a `set_route_table_size` call that asks
for more entries than the table has leaves the number of entries of
`route_table` as it was. -/
theorem route_table_length_kept (c : BoolCodec) (w : World) (op : Op)
    (h : ∀ size, op = Op.set_route_table_size size → size ≤ w.self.route_table.length) :
    (Op.run c w op).self.route_table.length = w.self.route_table.length := by
  cases op with
  | set_route_table_size size =>
    have hle := h size rfl
    simp only [Op.run, set_route_table_size, set_route_table_size_loop_eq,
      List.length_append, List.length_replicate]
    omega
  | set_route_table table_index r =>
    simp only [Op.run, set_route_table]
    split <;> simp
  | set_route_table_by_id table_index id => rfl
  | route_set_rec_enable table_index yn =>
    simp only [Op.run, route_set_rec_enable, World.update]
    repeat (first | rfl | split)
  | route_get_rec_enable table_index =>
    simp only [Op.run, route_get_rec_enable]
    repeat (first | rfl | split)
  | route_get_gain table_index =>
    simp only [Op.run, route_get_gain]
    repeat (first | rfl | split)
  | route_set_gain table_index gain =>
    simp only [Op.run, route_set_gain, World.update]
    repeat (first | rfl | split)
  | route_get_effective_gain table_index =>
    simp only [Op.run, route_get_effective_gain]
    repeat (first | rfl | split)
  | route_get_peak_input_power table_index which_input =>
    simp only [Op.run, route_get_peak_input_power]
    repeat (first | rfl | split)
  | route_get_muted table_index =>
    simp only [Op.run, route_get_muted]
    repeat (first | rfl | split)
  | route_set_muted table_index yn =>
    simp only [Op.run, route_set_muted, World.update]
    repeat (first | rfl | split)
  | route_get_soloed table_index =>
    simp only [Op.run, route_get_soloed]
    repeat (first | rfl | split)
  | route_set_soloed table_index yn =>
    simp only [Op.run, route_set_soloed, World.update]
    repeat (first | rfl | split)
  | route_get_name table_index =>
    simp only [Op.run, route_get_name]
    repeat (first | rfl | split)
  | set_active yn => rfl
  | set_state node =>
    simp only [Op.run, set_state, set_feedback]
    repeat (first | rfl | split)

/-- Witness of the amended C6: `set_route_table_size (2)` on the three-entry table
of the sample world keeps three entries. -/
theorem route_table_length_kept_witness :
    (∀ size, Op.set_route_table_size 2 = Op.set_route_table_size size →
        size ≤ sample_world.self.route_table.length)
      ∧ (Op.run digit_codec sample_world (Op.set_route_table_size 2)).self.route_table.length
          = 3 :=
  have h : ∀ size, Op.set_route_table_size 2 = Op.set_route_table_size size →
      size ≤ sample_world.self.route_table.length := by
    intro size hs
    cases hs
    decide
  ⟨h, route_table_length_kept digit_codec sample_world (Op.set_route_table_size 2) h⟩

/-- C7: `ENSURE_GUI_THREAD` aborts exactly when `caller_is_self ()` is false; when it
is true the program continues in the very same state; and whatever expressions
are passed for `obj`, `method` and the extra arguments, the outcome is the same,
so none of them is evaluated. -/
theorem ENSURE_GUI_THREAD_asserts {σ α β γ : Type} (caller_is_self : σ → Bool)
    (obj : σ → α × σ) (method : σ → β × σ) (args : List (σ → γ × σ)) (s : σ) :
    (ENSURE_GUI_THREAD caller_is_self obj method args s = Outcome.aborted
        ↔ caller_is_self s = false)
      ∧ (caller_is_self s = true →
          ENSURE_GUI_THREAD caller_is_self obj method args s = Outcome.continues s)
      ∧ (∀ {α' β' γ' : Type} (obj' : σ → α' × σ) (method' : σ → β' × σ)
            (args' : List (σ → γ' × σ)),
          ENSURE_GUI_THREAD caller_is_self obj' method' args' s
            = ENSURE_GUI_THREAD caller_is_self obj method args s) := by
  refine ⟨?_, ?_, ?_⟩
  · cases hc : caller_is_self s <;> simp [ENSURE_GUI_THREAD, hc]
  · intro hc
    simp [ENSURE_GUI_THREAD, hc]
  · intros
    rfl

/-- C8: starting from the initial static state, after constructing any non-empty
sequence of protocols the handler `notify_stripable_selection_changed` is
connected exactly once and `selection_connected` is true; the first construction
alone already gives that state, and any further construction leaves the static
state as it is, making no connection. -/
theorem selection_handler_connected_once (first : String) (rest : List String) :
    (ControlProtocol.construct Statics.initial first).2
        = { selection_connected := true,
            StripableSelectionChanged := [Slot.notify_stripable_selection_changed] }
      ∧ (construct_all Statics.initial (first :: rest)).2
        = { selection_connected := true,
            StripableSelectionChanged := [Slot.notify_stripable_selection_changed] }
      ∧ (construct_all Statics.initial (first :: rest)).1.length = rest.length + 1
      ∧ (∀ str, (ControlProtocol.construct
            (construct_all Statics.initial (first :: rest)).2 str).2
          = (construct_all Statics.initial (first :: rest)).2) := by
  have hstep : ∀ (names : List String) (g : Statics), g.selection_connected = true →
      (construct_all g names).2 = g ∧ (construct_all g names).1.length = names.length := by
    intro names
    induction names with
    | nil => intro g _; exact ⟨rfl, rfl⟩
    | cons str tl ih =>
      intro g hg
      have hc : (ControlProtocol.construct g str).2 = g := by
        simp [ControlProtocol.construct, hg]
      simp only [construct_all, hc, List.length_cons]
      exact ⟨(ih g hg).1, by rw [(ih g hg).2]⟩
  have hfirst : (ControlProtocol.construct Statics.initial first).2
      = { selection_connected := true,
          StripableSelectionChanged := [Slot.notify_stripable_selection_changed] } := by
    simp [ControlProtocol.construct, Statics.initial]
  have hall : (construct_all Statics.initial (first :: rest)).2
      = { selection_connected := true,
          StripableSelectionChanged := [Slot.notify_stripable_selection_changed] } := by
    simp only [construct_all, hfirst]
    exact (hstep rest _ rfl).1
  refine ⟨hfirst, hall, ?_, ?_⟩
  · simp only [construct_all, hfirst, List.length_cons]
    rw [(hstep rest _ rfl).2]
  · intro str
    rw [hall]
    simp [ControlProtocol.construct]

end Ardour
